import Mathlib

/-!
Verification of the RabbitMQ messaging client of `ton-business-suite`
(`src/messaging/connection.ts`): envelope wire format, consume
acknowledgment policy, publish option construction and error behaviour,
channel pool, topology declaration, publish retry helper, and the RPC
request/reply pattern.
-/

namespace TonSuite

/-- JSON values: the wire format produced by JSON.stringify and read back by
JSON.parse in `publish`, `sendToQueue` and `consume`. -/
inductive Json where
  | null : Json
  | bool (b : Bool) : Json
  | num (n : Int) : Json
  | str (s : String) : Json
  | arr (elems : List Json) : Json
  | obj (fields : List (String × Json)) : Json

/-- The optional `metadata` block of a `QueueMessage`
(`connection.ts` lines 37-42): four optional fields. -/
structure QueueMessageMetadata where
  correlationId : Option String
  replyTo : Option String
  priority : Option Int
  ttl : Option Int
deriving DecidableEq, Repr

/-- The `QueueMessage` interface (`connection.ts` lines 32-43): the Envelope
of the spec. `data` is an arbitrary JSON payload. -/
structure QueueMessage where
  id : String
  type : String
  timestamp : Int
  data : Json
  metadata : Option QueueMessageMetadata

/-- JSON encoding of the metadata block, as JSON.stringify renders the
TypeScript object: a field whose value is undefined is omitted. -/
def encodeMetadata (m : QueueMessageMetadata) : Json :=
  Json.obj
    ((m.correlationId.map fun s => ("correlationId", Json.str s)).toList ++
     (m.replyTo.map fun s => ("replyTo", Json.str s)).toList ++
     (m.priority.map fun n => ("priority", Json.num n)).toList ++
     (m.ttl.map fun n => ("ttl", Json.num n)).toList)

/-- JSON encoding of a `QueueMessage`, as `JSON.stringify(message)` in
`publish` (line 189) and `sendToQueue` (line 219) renders it. -/
def encodeQueueMessage (msg : QueueMessage) : Json :=
  Json.obj
    ([("id", Json.str msg.id), ("type", Json.str msg.type),
      ("timestamp", Json.num msg.timestamp), ("data", msg.data)] ++
     (msg.metadata.map fun m => ("metadata", encodeMetadata m)).toList)

/-- Field lookup on a JSON object, the semantics of property access on the
value returned by JSON.parse. -/
def Json.lookupField (j : Json) (key : String) : Option Json :=
  match j with
  | .obj fields => fields.lookup key
  | _ => none

/-- Read a JSON value as a string, as the typed field access expects. -/
def Json.asStr : Json → Option String
  | .str s => some s
  | _ => none

/-- Read a JSON value as a number, as the typed field access expects. -/
def Json.asNum : Json → Option Int
  | .num n => some n
  | _ => none

/-- Decoding of the metadata block from parsed JSON: each optional field is
read when present, absent fields come back as none (undefined). -/
def decodeMetadata (j : Json) : Option QueueMessageMetadata :=
  match j with
  | .obj _ =>
      some
        { correlationId := (j.lookupField "correlationId").bind Json.asStr
          replyTo := (j.lookupField "replyTo").bind Json.asStr
          priority := (j.lookupField "priority").bind Json.asNum
          ttl := (j.lookupField "ttl").bind Json.asNum }
  | _ => none

/-- Decoding of a `QueueMessage` from parsed JSON, as `consume` reads the
result of `JSON.parse(msg.content.toString())` (lines 244-245) through the
`QueueMessage` interface. -/
def decodeQueueMessage (j : Json) : Option QueueMessage := do
  let id ← (j.lookupField "id").bind Json.asStr
  let ty ← (j.lookupField "type").bind Json.asStr
  let ts ← (j.lookupField "timestamp").bind Json.asNum
  let data ← j.lookupField "data"
  some
    { id := id, type := ty, timestamp := ts, data := data
      metadata := (j.lookupField "metadata").bind decodeMetadata }

/-- A broker settlement action: `channel.ack(msg)` or
`channel.nack(msg, allUpTo, requeue)`. -/
inductive Settlement where
  | ack : Settlement
  | nack (allUpTo requeue : Bool) : Settlement
deriving DecidableEq, Repr

/-- The per-message dispatch that `consume` installs (lines 240-260): a null
delivery returns at once; otherwise one try block parses the body, runs the
handler and acks, and its single catch nacks with requeue = true, so a parse
failure and a handler failure take the same catch path. `parse` stands for
`JSON.parse` on the delivered body, `handler` for the caller handler. -/
def consumeDispatch {α ε ε2 : Type} (parse : α → Except ε QueueMessage)
    (handler : QueueMessage → Except ε2 Unit) : Option α → List Settlement
  | none => []
  | some raw =>
    match parse raw with
    | .error _ => [.nack false true]
    | .ok msg =>
      match handler msg with
      | .ok _ => [.ack]
      | .error _ => [.nack false true]

/-- Lookup in a JavaScript object literal represented as an ordered list of
key/value bindings: the LAST binding of a key wins, which is the semantics of
an object literal with a trailing spread. -/
def jsGet : List (String × Json) → String → Option Json
  | [], _ => none
  | (k, v) :: rest, key =>
    match jsGet rest key with
    | some w => some w
    | none => if k = key then some v else none

/-- The broker options object built identically by `publish` (lines 181-187)
and `sendToQueue` (lines 211-217): default bindings for persistent,
messageId, timestamp and type, followed by the caller options spread
(`...options`), which therefore comes last. -/
def messageOptions (msg : QueueMessage) (options : List (String × Json)) :
    List (String × Json) :=
  [("persistent", Json.bool true), ("messageId", Json.str msg.id),
   ("timestamp", Json.num msg.timestamp), ("type", Json.str msg.type)] ++
  options

/-- A channel as the pool sees it: amqplib channel with its prefetch setting.
The healthy flag records the real-world state of the channel; the pool code
never inspects it. -/
structure Channel where
  healthy : Bool
  prefetchCount : Option Nat
deriving DecidableEq, Repr

/-- The mutable state of the `RabbitMQConnection` pool (lines 47-49):
an optional connection object, the connected flag, and the channel map,
represented as an association list whose most recent insertion is first. -/
structure PoolState where
  connection : Option Unit
  connected : Bool
  channels : List (String × Channel)
deriving DecidableEq, Repr

/-- The channel a cache miss creates (lines 167-172): fresh and with
prefetch 10. -/
def freshChannel : Channel := { healthy := true, prefetchCount := some 10 }

/-- `getChannel(name)` (lines 158-174): return the cached channel for the
name if the map has one (no health check); otherwise throw the generic
Error when the connection object is absent, else create a channel with
prefetch 10 and cache it. The connected flag is never consulted. -/
def getChannel (st : PoolState) (name : String) :
    Except String (Channel × PoolState) :=
  match st.channels.lookup name with
  | some ch => .ok (ch, st)
  | none =>
    match st.connection with
    | none => .error "RabbitMQ not connected"
    | some _ =>
      .ok (freshChannel, { st with channels := (name, freshChannel) :: st.channels })

/-- The connection error handler registered by `connect` (lines 59-62): it
logs and sets the connected flag to false, touching nothing else. -/
def onConnectionError (st : PoolState) : PoolState :=
  { st with connected := false }

/-- Outcome of the `channel.publish` / `channel.sendToQueue` transport call:
the broker accepted the write, signalled backpressure by returning false,
or the call threw. -/
inductive TransportResult where
  | accepted : TransportResult
  | backpressure : TransportResult
  | raised (e : String) : TransportResult
deriving DecidableEq, Repr

/-- One `publish` / `sendToQueue` call (lines 177-204 and 207-233): get the
publisher channel, hand the message to the transport, and return its
boolean; the surrounding try/catch turns ANY thrown error, including a
failed `getChannel`, into a returned false. The function never raises. -/
def publishAttempt (st : PoolState) (transport : TransportResult) :
    PoolState × Bool :=
  match getChannel st "publisher" with
  | .error _ => (st, false)
  | .ok (_, st2) =>
    match transport with
    | .accepted => (st2, true)
    | .backpressure => (st2, false)
    | .raised _ => (st2, false)

/-- One topology operation issued to the broker channel. -/
inductive TopoOp where
  | assertExchange (name ty : String) (durable : Bool) (messageTtl : Option Nat) : TopoOp
  | assertQueue (name : String) (durable : Bool) (deadLetterExchange : Option String)
      (messageTtl : Option Nat) (maxPriority : Option Nat) : TopoOp
  | bindQueue (queue exchange key : String) : TopoOp
deriving DecidableEq, Repr

/-- The exchange descriptor of `initializeExchanges` (lines 101-107). -/
def exchangeDescriptor : List (String × String) :=
  [("payment.events", "topic"), ("loyalty.events", "topic"),
   ("tip.events", "topic"), ("system.events", "fanout"),
   ("compliance.events", "direct")]

/-- The queue descriptor of `initializeQueues` (lines 124-137). -/
def queueDescriptor : List String :=
  ["payment.processing", "payment.confirmed", "payment.failed",
   "loyalty.points.earned", "loyalty.points.redeemed",
   "tip.processing", "tip.settled", "webhook.notification",
   "compliance.check", "analytics.event",
   "notification.email", "notification.sms"]

/-- The operations `initializeExchanges` issues (lines 109-116): each
exchange durable with a 24h message TTL argument. -/
def initializeExchangesOps : List TopoOp :=
  exchangeDescriptor.map fun e => .assertExchange e.1 e.2 true (some 86400000)

/-- The operations `initializeQueues` issues (lines 139-153): every
descriptor queue durable with dead-letter exchange `dead-letter`, message
TTL 86400000 ms and max priority 10; then the dead-letter fanout exchange,
its queue, and the binding with the empty (catch-all) key. -/
def initializeQueuesOps : List TopoOp :=
  (queueDescriptor.map fun q =>
    .assertQueue q true (some "dead-letter") (some 86400000) (some 10)) ++
  [.assertExchange "dead-letter" "fanout" true none,
   .assertQueue "dead-letter-queue" true none none none,
   .bindQueue "dead-letter-queue" "dead-letter" ""]

/-- Topology declaration as `connect` performs it (lines 70-71):
`initializeExchanges` first, then `initializeQueues`. -/
def declareTopologyOps : List TopoOp :=
  initializeExchangesOps ++ initializeQueuesOps

/-- Result of one invocation of the retried operation in
`publishWithRetry`: it resolved with a boolean or it threw. -/
inductive AttemptOutcome where
  | ok (accepted : Bool) : AttemptOutcome
  | thrown (e : Nat) : AttemptOutcome
deriving DecidableEq, Repr

/-- Observable outcome of `publishWithRetry`: its result (a boolean, or the
re-thrown last error), how many times it invoked the operation, and the
backoff waits it performed, in order. -/
structure RetryResult where
  result : Except Nat Bool
  calls : Nat
  delays : List Nat
deriving Repr

/-- The loop body of `publishWithRetry` (lines 432-444) from attempt index
i with the given number of attempts remaining: a true result returns true
at once; a false result waits delayMs * 2 ^ i unless this was the last
attempt; a thrown error is swallowed unless this was the last attempt, in
which case it is re-thrown. Falling off the loop returns false. -/
def retryFrom (op : Nat → AttemptOutcome) (delayMs : Nat) :
    Nat → Nat → RetryResult
  | 0, _ => { result := .ok false, calls := 0, delays := [] }
  | remaining + 1, i =>
    match op i with
    | .ok true => { result := .ok true, calls := 1, delays := [] }
    | .ok false =>
      if remaining = 0 then { result := .ok false, calls := 1, delays := [] }
      else
        let r := retryFrom op delayMs remaining (i + 1)
        { result := r.result, calls := r.calls + 1,
          delays := (delayMs * 2 ^ i) :: r.delays }
    | .thrown e =>
      if remaining = 0 then { result := .error e, calls := 1, delays := [] }
      else
        let r := retryFrom op delayMs remaining (i + 1)
        { result := r.result, calls := r.calls + 1, delays := r.delays }

/-- `messageHelpers.publishWithRetry(op, maxRetries, delayMs)`
(lines 427-446). -/
def publishWithRetry (op : Nat → AttemptOutcome) (maxRetries delayMs : Nat) :
    RetryResult :=
  retryFrom op delayMs maxRetries 0

/-- A settlement of the promise returned by `rpc`: resolve with the parsed
reply payload, or reject with an error message. -/
inductive RpcSettle where
  | resolve (payload : Json) : RpcSettle
  | reject (e : String) : RpcSettle

/-- A delivery on the temporary RPC reply queue: its broker correlation ID
property and the outcome of `JSON.parse` on its body. -/
structure RpcDelivery where
  correlationId : String
  content : Except String Json

/-- The reply-queue consumer callback of `rpc` (lines 281-291): a null
delivery or one whose correlation ID differs from the pending ID returns at
once, performing NO settlement action; a matching delivery is parsed and,
on success, acked and resolved, while a parse failure rejects without
acking. The first component lists broker acks performed, the second the
promise settlement attempted. -/
def rpcReplyHandler (pending : String) :
    Option RpcDelivery → List Settlement × Option RpcSettle
  | none => ([], none)
  | some d =>
    if d.correlationId = pending then
      match d.content with
      | .ok payload => ([.ack], some (.resolve payload))
      | .error e => ([], some (.reject e))
    else ([], none)

/-- The observable state of one `rpc` call: how the promise settled (first
settlement wins, later ones are no-ops), whether the deadline timer is
still scheduled (the code never calls clearTimeout), whether it has fired,
whether the temporary reply subscription is still active (the code never
calls channel.cancel), and how many broker acks were performed. -/
structure RpcState where
  settled : Option RpcSettle
  timerScheduled : Bool
  timerFired : Bool
  consumerActive : Bool
  acks : Nat

/-- The state right after `rpc` set up its call (lines 273-302): nothing is
settled, the deadline timer is scheduled, and the reply subscription is
active. -/
def rpcInit : RpcState :=
  { settled := none, timerScheduled := true, timerFired := false,
    consumerActive := true, acks := 0 }

/-- An event observable by one `rpc` call: a delivery arrives on the reply
queue, or the deadline timer fires. -/
inductive RpcEvent where
  | deliver (d : RpcDelivery) : RpcEvent
  | timeout : RpcEvent

/-- Settling a JavaScript promise: resolve and reject are no-ops once the
promise is settled. -/
def promiseSettle (st : RpcState) (s : RpcSettle) : RpcState :=
  match st.settled with
  | some _ => st
  | none => { st with settled := some s }

/-- One event step of an `rpc` call (lines 281-302): a delivery runs the
reply handler while the subscription is active, recording its acks and
attempting its settlement; the timer firing attempts to reject with the
generic Error whose message is RPC timeout (line 301). -/
def rpcStep (pending : String) (st : RpcState) : RpcEvent → RpcState
  | .deliver d =>
    if st.consumerActive then
      let handled := rpcReplyHandler pending (some d)
      let st2 := { st with acks := st.acks + handled.1.length }
      match handled.2 with
      | none => st2
      | some s => promiseSettle st2 s
    else st
  | .timeout =>
    if st.timerScheduled then
      promiseSettle { st with timerFired := true, timerScheduled := false }
        (.reject "RPC timeout")
    else st

/-- The state of one `rpc` call after a sequence of events, starting from
the freshly set-up call. -/
def rpcRun (pending : String) (events : List RpcEvent) : RpcState :=
  events.foldl (rpcStep pending) rpcInit

/-- A concrete sample message, the payment scenario of the spec. -/
def sampleMsg : QueueMessage :=
  { id := "p1", type := "payment.confirmed", timestamp := 1700000000000,
    data := Json.obj [("amount", Json.num 10)],
    metadata := some { correlationId := some "c1", replyTo := none,
                       priority := some 5, ttl := none } }

/-- A pool on which connect was never called: no connection object. -/
def unconnectedPool : PoolState :=
  { connection := none, connected := false, channels := [] }

/-- A healthy pool with a cached publisher channel. -/
def livePool : PoolState :=
  { connection := some (), connected := true,
    channels := [("publisher", freshChannel)] }

/-- A cached channel that has gone unhealthy in the real world. -/
def staleChannel : Channel := { healthy := false, prefetchCount := some 10 }

/-- A pool holding a stale cached publisher channel, right before the
connection-level error event arrives. -/
def erroredPool : PoolState :=
  { connection := some (), connected := true,
    channels := [("publisher", staleChannel)] }

/-- A reply-queue delivery whose correlation ID matches the pending call. -/
def matchedDelivery : RpcDelivery :=
  { correlationId := "req-1", content := .ok (Json.num 7) }

/-- A reply-queue delivery whose correlation ID does not match the pending
call. -/
def strayDelivery : RpcDelivery :=
  { correlationId := "req-2", content := .ok (Json.num 1) }

/-- C9: serializing an Envelope as publish and sendToQueue do (JSON encoding
of the QueueMessage object) and deserializing as consume does yields an
Envelope with every field equal to the original, including the nested
metadata map: a round-trip identity. -/
theorem claim_C9 (msg : QueueMessage) :
    decodeQueueMessage (encodeQueueMessage msg) = some msg := by
  rcases msg with ⟨id, ty, ts, data, md⟩
  rcases md with _ | ⟨c, r, p, t⟩
  · rfl
  · rcases c with _ | c <;> rcases r with _ | r <;> rcases p with _ | p <;>
      rcases t with _ | t <;> rfl

/-- C10: for every non-null delivery, the per-message dispatch installed by
consume performs exactly one settlement action, a single ack or a single
nack, never zero and never both; a null delivery performs none. -/
theorem claim_C10 {α ε ε2 : Type} (parse : α → Except ε QueueMessage)
    (handler : QueueMessage → Except ε2 Unit) (raw : α) :
    (∃ s, consumeDispatch parse handler (some raw) = [s]) ∧
    consumeDispatch parse handler none = [] := by
  refine ⟨?_, rfl⟩
  cases hp : parse raw with
  | error e => exact ⟨.nack false true, by simp [consumeDispatch, hp]⟩
  | ok msg =>
    cases hh : handler msg with
    | error e => exact ⟨.nack false true, by simp [consumeDispatch, hp, hh]⟩
    | ok u => exact ⟨.ack, by simp [consumeDispatch, hp, hh]⟩

/-- C9 witness: the round trip at a concrete sample message. -/
theorem claim_C9_witness :
    decodeQueueMessage (encodeQueueMessage sampleMsg) = some sampleMsg :=
  claim_C9 sampleMsg

/-- C10 witness: the dispatch at a concrete parse and handler. -/
theorem claim_C10_witness :
    (∃ s, consumeDispatch (fun (_ : Unit) => (Except.ok sampleMsg : Except Unit QueueMessage))
        (fun _ => (Except.ok () : Except Unit Unit)) (some ()) = [s]) ∧
    consumeDispatch (fun (_ : Unit) => (Except.ok sampleMsg : Except Unit QueueMessage))
      (fun _ => (Except.ok () : Except Unit Unit)) none = [] :=
  claim_C10 (fun (_ : Unit) => (Except.ok sampleMsg : Except Unit QueueMessage))
    (fun _ => (Except.ok () : Except Unit Unit)) ()

/-- C1 counterexample: a message whose body fails to deserialize is nacked
WITH requeue (the single catch block of consume), not nacked without
requeue as the claim states, so it is requeued rather than dead-lettered. -/
theorem claim_C1_cex :
    consumeDispatch (fun (_ : Unit) => (Except.error () : Except Unit QueueMessage))
      (fun _ => (Except.ok () : Except Unit Unit)) (some ())
      = [Settlement.nack false true] ∧
    Settlement.nack false true ≠ Settlement.nack false false :=
  ⟨rfl, by decide⟩

/-- C1 (amended): deserialization failure and handler failure both take the
single catch path of consume and are nacked with requeue = true; only a
successful handler run leads to an ack. -/
theorem claim_C1 {α ε ε2 : Type} (parse : α → Except ε QueueMessage)
    (handler : QueueMessage → Except ε2 Unit) (raw : α) :
    (∀ e, parse raw = Except.error e →
        consumeDispatch parse handler (some raw) = [Settlement.nack false true]) ∧
    (∀ msg, parse raw = Except.ok msg → handler msg = Except.ok () →
        consumeDispatch parse handler (some raw) = [Settlement.ack]) ∧
    (∀ msg e, parse raw = Except.ok msg → handler msg = Except.error e →
        consumeDispatch parse handler (some raw) = [Settlement.nack false true]) := by
  refine ⟨?_, ?_, ?_⟩
  · intro e hp
    simp [consumeDispatch, hp]
  · intro msg hp hh
    simp [consumeDispatch, hp, hh]
  · intro msg e hp hh
    simp [consumeDispatch, hp, hh]

/-- C1 witness: the amended behaviour at a concrete failing parse. -/
theorem claim_C1_witness :
    consumeDispatch (fun (_ : Unit) => (Except.error () : Except Unit QueueMessage))
      (fun _ => (Except.ok () : Except Unit Unit)) (some ())
      = [Settlement.nack false true] :=
  (claim_C1 (fun (_ : Unit) => (Except.error () : Except Unit QueueMessage))
      (fun _ => (Except.ok () : Except Unit Unit)) ()).1 () rfl

/-- C4 counterexample: a delivery on the RPC reply queue whose correlation
ID differs from the pending one is discarded WITHOUT being acknowledged:
the handler returns before any ack, so no settlement action occurs. -/
theorem claim_C4_cex :
    rpcReplyHandler "req-1" (some strayDelivery)
      = (([] : List Settlement), (none : Option RpcSettle)) ∧
    Settlement.ack ∉ (rpcReplyHandler "req-1" (some strayDelivery)).1 := by
  refine ⟨rfl, ?_⟩
  show Settlement.ack ∉ ([] : List Settlement)
  simp

/-- C4 (amended): only a delivery whose correlation ID equals the pending
ID settles the call; every other delivery (and a null one) is discarded
with no settlement action at all, in particular without an ack; a matching
delivery is acked and resolved when its body parses, and rejected without
an ack when parsing fails. -/
theorem claim_C4 (pending : String) (d : RpcDelivery) :
    (∀ s, (rpcReplyHandler pending (some d)).2 = some s →
        d.correlationId = pending) ∧
    (d.correlationId ≠ pending → rpcReplyHandler pending (some d) = ([], none)) ∧
    (d.correlationId = pending → ∀ payload, d.content = Except.ok payload →
        rpcReplyHandler pending (some d)
          = ([Settlement.ack], some (RpcSettle.resolve payload))) ∧
    (d.correlationId = pending → ∀ e, d.content = Except.error e →
        rpcReplyHandler pending (some d) = ([], some (RpcSettle.reject e))) ∧
    rpcReplyHandler pending none = ([], none) := by
  by_cases hd : d.correlationId = pending
  · refine ⟨fun s _ => hd, fun hne => absurd hd hne, ?_, ?_, rfl⟩
    · intro _ payload hc
      simp [rpcReplyHandler, hd, hc]
    · intro _ e hc
      simp [rpcReplyHandler, hd, hc]
  · refine ⟨?_, ?_, fun h => absurd h hd, fun h => absurd h hd, rfl⟩
    · intro s hs
      exact absurd hs (by simp [rpcReplyHandler, hd])
    · intro _
      simp [rpcReplyHandler, hd]

/-- C4 witness: a matching delivery with a parsing body is acked and
resolves the call. -/
theorem claim_C4_witness :
    rpcReplyHandler "req-1" (some matchedDelivery)
      = ([Settlement.ack], some (RpcSettle.resolve (Json.num 7))) :=
  (claim_C4 "req-1" matchedDelivery).2.2.1 rfl (Json.num 7) rfl

/-- Appending bindings that do not bind a key leaves the lookup for that key
to the earlier bindings. -/
theorem jsGet_append_none (l1 l2 : List (String × Json)) (k : String)
    (h : jsGet l2 k = none) : jsGet (l1 ++ l2) k = jsGet l1 k := by
  induction l1 with
  | nil => simpa using h
  | cons p rest ih =>
    rcases p with ⟨k2, v2⟩
    simp only [List.cons_append, jsGet, List.append_eq, ih]

/-- C6 counterexample: the caller options are spread AFTER the defaults, so
an options object binding persistent overrides the persistent marking; the
claim fails for that options argument. -/
theorem claim_C6_cex :
    jsGet (messageOptions sampleMsg [("persistent", Json.bool false)]) "persistent"
      = some (Json.bool false) ∧
    some (Json.bool false) ≠ some (Json.bool true) := by
  refine ⟨rfl, ?_⟩
  intro h
  injection h with h2
  injection h2 with h3
  exact Bool.noConfusion h3

/-- C6 (amended): publish and sendToQueue build the broker options with the
defaults first and the caller options spread last, so whenever the options
argument does not itself bind persistent, messageId, timestamp or type, the
message goes out persistent and stamped with messageId, timestamp and type
taken from the envelope; an options argument binding one of these keys
overrides the default. -/
theorem claim_C6 (msg : QueueMessage) (options : List (String × Json))
    (hp : jsGet options "persistent" = none)
    (hm : jsGet options "messageId" = none)
    (ht : jsGet options "timestamp" = none)
    (hy : jsGet options "type" = none) :
    jsGet (messageOptions msg options) "persistent" = some (Json.bool true) ∧
    jsGet (messageOptions msg options) "messageId" = some (Json.str msg.id) ∧
    jsGet (messageOptions msg options) "timestamp" = some (Json.num msg.timestamp) ∧
    jsGet (messageOptions msg options) "type" = some (Json.str msg.type) := by
  refine ⟨?_, ?_, ?_, ?_⟩
  · rw [messageOptions, jsGet_append_none _ _ _ hp]; rfl
  · rw [messageOptions, jsGet_append_none _ _ _ hm]; rfl
  · rw [messageOptions, jsGet_append_none _ _ _ ht]; rfl
  · rw [messageOptions, jsGet_append_none _ _ _ hy]; rfl

/-- C6 witness: with an empty options argument the four defaults are handed
to the broker. -/
theorem claim_C6_witness :
    jsGet (messageOptions sampleMsg []) "persistent" = some (Json.bool true) ∧
    jsGet (messageOptions sampleMsg []) "messageId" = some (Json.str sampleMsg.id) ∧
    jsGet (messageOptions sampleMsg []) "timestamp" = some (Json.num sampleMsg.timestamp) ∧
    jsGet (messageOptions sampleMsg []) "type" = some (Json.str sampleMsg.type) :=
  claim_C6 sampleMsg [] rfl rfl rfl rfl

/-- C2 counterexample: with no usable channel (no connection object) the
publish call RETURNS false instead of raising, and a transport failure on a
live channel also returns false: a false return does not distinguish
backpressure from a hard error. -/
theorem claim_C2_cex :
    publishAttempt unconnectedPool TransportResult.accepted
      = (unconnectedPool, false) ∧
    publishAttempt livePool (TransportResult.raised "channel closed")
      = (livePool, false) :=
  ⟨rfl, rfl⟩

/-- C2 (amended): publish and sendToQueue catch every error and return
false for it, so false signals backpressure OR any failure, including an
unusable channel; nothing is ever raised, and true is returned exactly when
the channel was obtained and the broker accepted the write. -/
theorem claim_C2 (st : PoolState) (t : TransportResult) :
    (∀ e, getChannel st "publisher" = Except.error e →
        publishAttempt st t = (st, false)) ∧
    (∀ ch st2, getChannel st "publisher" = Except.ok (ch, st2) →
        ((t = TransportResult.accepted → publishAttempt st t = (st2, true)) ∧
         (t = TransportResult.backpressure → publishAttempt st t = (st2, false)) ∧
         (∀ e, t = TransportResult.raised e →
            publishAttempt st t = (st2, false)))) := by
  constructor
  · intro e hch
    simp [publishAttempt, hch]
  · intro ch st2 hch
    refine ⟨?_, ?_, ?_⟩
    · intro htr
      simp [publishAttempt, hch, htr]
    · intro htr
      simp [publishAttempt, hch, htr]
    · intro e htr
      simp [publishAttempt, hch, htr]

/-- C2 witness: on a pool that was never connected, the publish call
returns false instead of raising. -/
theorem claim_C2_witness :
    publishAttempt unconnectedPool TransportResult.backpressure
      = (unconnectedPool, false) :=
  (claim_C2 unconnectedPool TransportResult.backpressure).1
    "RabbitMQ not connected" rfl

/-- C7: topology declaration issues all descriptor exchange assertions and
all descriptor queue assertions first and the shared dead-letter path last:
the fanout exchange dead-letter, its queue dead-letter-queue, and the
binding with the empty (catch-all) key; and every descriptor queue is
asserted durable with dead-letter exchange dead-letter, message TTL
86400000 ms (24 hours) and max priority 10. -/
theorem claim_C7 :
    (∃ pre, declareTopologyOps = pre ++
        [TopoOp.assertExchange "dead-letter" "fanout" true none,
         TopoOp.assertQueue "dead-letter-queue" true none none none,
         TopoOp.bindQueue "dead-letter-queue" "dead-letter" ""] ∧
      (∀ e ∈ exchangeDescriptor,
          TopoOp.assertExchange e.1 e.2 true (some 86400000) ∈ pre) ∧
      (∀ q ∈ queueDescriptor,
          TopoOp.assertQueue q true (some "dead-letter") (some 86400000)
            (some 10) ∈ pre)) ∧
    ((declareTopologyOps.all fun op =>
        match op with
        | .assertQueue q durable dlx ttl mp =>
          !(queueDescriptor.contains q) ||
            (durable && dlx == some "dead-letter" && ttl == some 86400000 &&
             mp == some 10)
        | _ => true) = true) := by
  refine ⟨⟨initializeExchangesOps ++ (queueDescriptor.map fun q =>
      TopoOp.assertQueue q true (some "dead-letter") (some 86400000) (some 10)),
      ?_, ?_, ?_⟩, ?_⟩
  · decide
  · decide
  · decide
  · decide

/-- C8 counterexample: after a connection-level error the pool only flips
its connected flag; getChannel still succeeds and hands back the cached
publisher channel even though that channel is unhealthy, instead of failing
with a connection error or opening a fresh channel. -/
theorem claim_C8_cex :
    (onConnectionError erroredPool).connected = false ∧
    getChannel (onConnectionError erroredPool) "publisher"
      = Except.ok (staleChannel, onConnectionError erroredPool) ∧
    staleChannel.healthy = false :=
  ⟨rfl, rfl, rfl⟩

/-- C8 (amended): getChannel returns the cached channel for the name
regardless of its health; on a cache miss it throws the generic Error
RabbitMQ not connected exactly when the connection object is absent and
otherwise opens a fresh channel with prefetch 10 over the shared
connection; a connection-level error only sets the connected flag to false
and getChannel never consults that flag, so subsequent calls behave as
before the error. -/
theorem claim_C8 (st : PoolState) (name : String) :
    (∀ ch, st.channels.lookup name = some ch →
        getChannel st name = Except.ok (ch, st)) ∧
    (st.channels.lookup name = none → st.connection = none →
        getChannel st name = Except.error "RabbitMQ not connected") ∧
    (∀ u, st.channels.lookup name = none → st.connection = some u →
        getChannel st name = Except.ok (freshChannel,
          { st with channels := (name, freshChannel) :: st.channels })) ∧
    (onConnectionError st).connected = false ∧
    getChannel (onConnectionError st) name
      = (getChannel st name).map fun p => (p.1, onConnectionError p.2) := by
  refine ⟨?_, ?_, ?_, rfl, ?_⟩
  · intro ch hl
    simp [getChannel, hl]
  · intro hl hc
    simp [getChannel, hl, hc]
  · intro u hl hc
    simp [getChannel, hl, hc]
  · rcases st with ⟨conn, connected, chans⟩
    cases hl : chans.lookup name with
    | some ch => simp [getChannel, onConnectionError, hl, Except.map]
    | none =>
      cases conn with
      | none => simp [getChannel, onConnectionError, hl, Except.map]
      | some u => simp [getChannel, onConnectionError, hl, Except.map]

/-- C8 witness: a cache hit returns the cached channel unchanged. -/
theorem claim_C8_witness :
    getChannel livePool "publisher" = Except.ok (freshChannel, livePool) :=
  (claim_C8 livePool "publisher").1 freshChannel rfl

/-- If every attempt before index k fails and attempt k returns true, the
retry loop stops with true after exactly k + 1 invocations. -/
theorem retryFrom_first_success (op : Nat → AttemptOutcome) (delayMs : Nat) :
    ∀ remaining start k, k < remaining →
      (∀ j, j < k → op (start + j) ≠ AttemptOutcome.ok true) →
      op (start + k) = AttemptOutcome.ok true →
      (retryFrom op delayMs remaining start).result = Except.ok true ∧
      (retryFrom op delayMs remaining start).calls = k + 1 := by
  intro remaining
  induction remaining with
  | zero =>
    intro start k hk hb hs
    exact absurd hk (Nat.not_lt_zero k)
  | succ r ih =>
    intro start k hk hb hs
    cases k with
    | zero =>
      have hs0 : op start = AttemptOutcome.ok true := by simpa using hs
      simp [retryFrom, hs0]
    | succ k2 =>
      have h0 : op start ≠ AttemptOutcome.ok true := by
        have h := hb 0 (Nat.succ_pos k2)
        simpa using h
      have hr0 : r ≠ 0 := by omega
      have hb2 : ∀ j, j < k2 → op (start + 1 + j) ≠ AttemptOutcome.ok true := by
        intro j hj
        have heq : start + 1 + j = start + (j + 1) := by omega
        rw [heq]
        exact hb (j + 1) (by omega)
      have hs2 : op (start + 1 + k2) = AttemptOutcome.ok true := by
        have heq : start + 1 + k2 = start + (k2 + 1) := by omega
        rw [heq]
        exact hs
      have ihres := ih (start + 1) k2 (by omega) hb2 hs2
      cases hop : op start with
      | ok b =>
        cases b with
        | true => exact absurd hop h0
        | false => simp [retryFrom, hop, hr0, ihres.1, ihres.2]
      | thrown e2 => simp [retryFrom, hop, hr0, ihres.1, ihres.2]

/-- One unfolding step of the retry loop. -/
theorem retryFrom_succ (op : Nat → AttemptOutcome) (delayMs r i : Nat) :
    retryFrom op delayMs (r + 1) i =
      match op i with
      | .ok true => { result := .ok true, calls := 1, delays := [] }
      | .ok false =>
        if r = 0 then { result := .ok false, calls := 1, delays := [] }
        else
          { result := (retryFrom op delayMs r (i + 1)).result,
            calls := (retryFrom op delayMs r (i + 1)).calls + 1,
            delays := (delayMs * 2 ^ i) :: (retryFrom op delayMs r (i + 1)).delays }
      | .thrown e =>
        if r = 0 then { result := .error e, calls := 1, delays := [] }
        else
          { result := (retryFrom op delayMs r (i + 1)).result,
            calls := (retryFrom op delayMs r (i + 1)).calls + 1,
            delays := (retryFrom op delayMs r (i + 1)).delays } := rfl

/-- If no attempt among remaining + 1 returns true, the loop result is
determined by the last attempt: a false result falls off the loop and
returns false, a thrown error is re-thrown. -/
theorem retryFrom_exhaust (op : Nat → AttemptOutcome) (delayMs : Nat) :
    ∀ remaining start,
      (∀ j, j < remaining → op (start + j) ≠ AttemptOutcome.ok true) →
      ((op (start + remaining) = AttemptOutcome.ok false →
          (retryFrom op delayMs (remaining + 1) start).result = Except.ok false) ∧
       (∀ e, op (start + remaining) = AttemptOutcome.thrown e →
          (retryFrom op delayMs (remaining + 1) start).result = Except.error e)) := by
  intro remaining
  induction remaining with
  | zero =>
    intro start hb
    constructor
    · intro hlast
      have h0 : op start = AttemptOutcome.ok false := by simpa using hlast
      simp [retryFrom, h0]
    · intro e hlast
      have h0 : op start = AttemptOutcome.thrown e := by simpa using hlast
      simp [retryFrom, h0]
  | succ r ih =>
    intro start hb
    have h0 : op start ≠ AttemptOutcome.ok true := by
      have h := hb 0 (Nat.succ_pos r)
      simpa using h
    have hb2 : ∀ j, j < r → op (start + 1 + j) ≠ AttemptOutcome.ok true := by
      intro j hj
      have heq : start + 1 + j = start + (j + 1) := by omega
      rw [heq]
      exact hb (j + 1) (by omega)
    have ihres := ih (start + 1) hb2
    have heq : start + 1 + r = start + (r + 1) := by omega
    constructor
    · intro hlast
      cases hop : op start with
      | ok b =>
        cases b with
        | true => exact absurd hop h0
        | false =>
          have hrec := ihres.1 (by rw [heq]; exact hlast)
          rw [retryFrom_succ, hop]
          simp [hrec]
      | thrown e2 =>
        have hrec := ihres.1 (by rw [heq]; exact hlast)
        rw [retryFrom_succ, hop]
        simp [hrec]
    · intro e hlast
      cases hop : op start with
      | ok b =>
        cases b with
        | true => exact absurd hop h0
        | false =>
          have hrec := ihres.2 e (by rw [heq]; exact hlast)
          rw [retryFrom_succ, hop]
          simp [hrec]
      | thrown e2 =>
        have hrec := ihres.2 e (by rw [heq]; exact hlast)
        rw [retryFrom_succ, hop]
        simp [hrec]

/-- C3: publishWithRetry returns true as soon as some invocation of the
operation returns true, after exactly that many invocations; with an
operation failing three times then succeeding and five attempts it returns
true after exactly 4 invocations with waits delayMs * 2 ^ 0, 2 ^ 1, 2 ^ 2;
and when every attempt fails it returns false when the last invocation
returned false and re-throws the error when the last invocation threw. -/
theorem claim_C3 (op : Nat → AttemptOutcome) (maxAttempts delayMs i : Nat)
    (hi : i < maxAttempts)
    (hbefore : ∀ j, j < i → op j ≠ AttemptOutcome.ok true)
    (hsucc : op i = AttemptOutcome.ok true) :
    ((publishWithRetry op maxAttempts delayMs).result = Except.ok true ∧
     (publishWithRetry op maxAttempts delayMs).calls = i + 1) ∧
    (publishWithRetry (fun j => AttemptOutcome.ok (decide (3 ≤ j))) 5 delayMs =
      { result := Except.ok true, calls := 4,
        delays := [delayMs * 2 ^ 0, delayMs * 2 ^ 1, delayMs * 2 ^ 2] }) ∧
    (∀ op2 : Nat → AttemptOutcome, ∀ n : Nat,
      (∀ j, j < n → op2 j ≠ AttemptOutcome.ok true) →
      ((op2 n = AttemptOutcome.ok false →
          (publishWithRetry op2 (n + 1) delayMs).result = Except.ok false) ∧
       (∀ e, op2 n = AttemptOutcome.thrown e →
          (publishWithRetry op2 (n + 1) delayMs).result = Except.error e))) := by
  refine ⟨?_, rfl, ?_⟩
  · exact retryFrom_first_success op delayMs maxAttempts 0 i hi
      (fun j hj => by simpa using hbefore j hj) (by simpa using hsucc)
  · intro op2 n hb
    have h := retryFrom_exhaust op2 delayMs n 0
      (fun j hj => by simpa using hb j hj)
    exact ⟨fun hlast => h.1 (by simpa using hlast),
           fun e hlast => h.2 e (by simpa using hlast)⟩

/-- C3 witness: the concrete scenario, false three times then true with
five attempts, returns true after four invocations. -/
theorem claim_C3_witness :
    (publishWithRetry (fun j => AttemptOutcome.ok (decide (3 ≤ j))) 5 1000).result
      = Except.ok true ∧
    (publishWithRetry (fun j => AttemptOutcome.ok (decide (3 ≤ j))) 5 1000).calls
      = 4 :=
  (claim_C3 (fun j => AttemptOutcome.ok (decide (3 ≤ j))) 5 1000 3
    (by decide) (by decide) rfl).1

/-- Resolving or rejecting never changes the other fields of the call
state. -/
theorem promiseSettle_fields (st : RpcState) (s : RpcSettle) :
    (promiseSettle st s).timerScheduled = st.timerScheduled ∧
    (promiseSettle st s).timerFired = st.timerFired ∧
    (promiseSettle st s).consumerActive = st.consumerActive ∧
    (promiseSettle st s).acks = st.acks := by
  unfold promiseSettle
  cases st.settled <;> simp

/-- A settled promise stays settled with its original outcome. -/
theorem promiseSettle_settled_some (st : RpcState) (s s2 : RpcSettle)
    (h : st.settled = some s2) : (promiseSettle st s).settled = some s2 := by
  simp [promiseSettle, h]

/-- No event deactivates the reply subscription: the code never cancels
the consumer. -/
theorem rpcStep_consumerActive (pending : String) (st : RpcState) (e : RpcEvent) :
    (rpcStep pending st e).consumerActive = st.consumerActive := by
  cases e with
  | deliver d =>
    by_cases hc : st.consumerActive
    · cases hs : (rpcReplyHandler pending (some d)).2 with
      | none => simp [rpcStep, hc, hs]
      | some s => simp [rpcStep, hc, hs, promiseSettle_fields]
    · simp [rpcStep, hc]
  | timeout =>
    by_cases ht : st.timerScheduled
    · simp [rpcStep, ht, promiseSettle_fields]
    · simp [rpcStep, ht]

/-- A delivery never touches the deadline timer: the code never calls
clearTimeout. -/
theorem rpcStep_deliver_timerScheduled (pending : String) (st : RpcState)
    (d : RpcDelivery) :
    (rpcStep pending st (RpcEvent.deliver d)).timerScheduled
      = st.timerScheduled := by
  by_cases hc : st.consumerActive
  · cases hs : (rpcReplyHandler pending (some d)).2 with
    | none => simp [rpcStep, hc, hs]
    | some s => simp [rpcStep, hc, hs, promiseSettle_fields]
  · simp [rpcStep, hc]

/-- Once the promise is settled, no later event changes its outcome. -/
theorem rpcStep_settled_some (pending : String) (st : RpcState) (e : RpcEvent)
    (s : RpcSettle) (h : st.settled = some s) :
    (rpcStep pending st e).settled = some s := by
  cases e with
  | deliver d =>
    by_cases hc : st.consumerActive
    · cases hs : (rpcReplyHandler pending (some d)).2 with
      | none => simp [rpcStep, hc, hs, h]
      | some s2 =>
        have hstep : rpcStep pending st (RpcEvent.deliver d)
            = promiseSettle
                { st with acks := st.acks + ((rpcReplyHandler pending (some d)).1).length }
                s2 := by
          simp [rpcStep, hc, hs]
        rw [hstep]
        exact promiseSettle_settled_some _ _ _ h
    · simp [rpcStep, hc, h]
  | timeout =>
    by_cases ht : st.timerScheduled
    · have hstep : rpcStep pending st RpcEvent.timeout
          = promiseSettle { st with timerFired := true, timerScheduled := false }
              (RpcSettle.reject "RPC timeout") := by
        simp [rpcStep, ht]
      rw [hstep]
      exact promiseSettle_settled_some _ _ _ h
    · simp [rpcStep, ht, h]

/-- A delivery whose handler performs no settlement leaves the promise
untouched. -/
theorem rpcStep_deliver_no_settle (pending : String) (st : RpcState)
    (d : RpcDelivery) (h : (rpcReplyHandler pending (some d)).2 = none) :
    (rpcStep pending st (RpcEvent.deliver d)).settled = st.settled := by
  by_cases hc : st.consumerActive
  · simp [rpcStep, hc, h]
  · simp [rpcStep, hc]

/-- The subscription survives any sequence of events. -/
theorem rpcFold_consumerActive (pending : String) (evs : List RpcEvent)
    (st : RpcState) :
    (evs.foldl (rpcStep pending) st).consumerActive = st.consumerActive := by
  induction evs generalizing st with
  | nil => rfl
  | cons e rest ih => rw [List.foldl_cons, ih, rpcStep_consumerActive]

/-- A settlement is permanent across any further events. -/
theorem rpcFold_settled_some (pending : String) (evs : List RpcEvent)
    (st : RpcState) (s : RpcSettle) (h : st.settled = some s) :
    (evs.foldl (rpcStep pending) st).settled = some s := by
  induction evs generalizing st with
  | nil => exact h
  | cons e rest ih =>
    rw [List.foldl_cons]
    exact ih _ (rpcStep_settled_some pending st e s h)

/-- Deliveries none of which settle leave the promise untouched. -/
theorem rpcFold_delivers_no_settle (pending : String) (ds : List RpcDelivery)
    (st : RpcState)
    (h : ∀ d ∈ ds, (rpcReplyHandler pending (some d)).2 = none) :
    ((ds.map RpcEvent.deliver).foldl (rpcStep pending) st).settled
      = st.settled := by
  induction ds generalizing st with
  | nil => rfl
  | cons d rest ih =>
    rw [List.map_cons, List.foldl_cons,
      ih _ (fun d2 hd2 => h d2 (List.mem_cons_of_mem d hd2))]
    exact rpcStep_deliver_no_settle pending st d (h d (List.mem_cons_self d rest))

/-- Deliveries never touch the deadline timer. -/
theorem rpcFold_delivers_timer (pending : String) (ds : List RpcDelivery)
    (st : RpcState) :
    ((ds.map RpcEvent.deliver).foldl (rpcStep pending) st).timerScheduled
      = st.timerScheduled := by
  induction ds generalizing st with
  | nil => rfl
  | cons d rest ih =>
    rw [List.map_cons, List.foldl_cons, ih, rpcStep_deliver_timerScheduled]

/-- The timer stays scheduled through any events that do not include its
firing: the code never clears it. -/
theorem rpcFold_timer_no_timeout (pending : String) (evs : List RpcEvent)
    (st : RpcState) (h : RpcEvent.timeout ∉ evs) :
    (evs.foldl (rpcStep pending) st).timerScheduled = st.timerScheduled := by
  induction evs generalizing st with
  | nil => rfl
  | cons e rest ih =>
    have h1 : RpcEvent.timeout ∉ rest := fun hm => h (List.mem_cons_of_mem e hm)
    have h2 : e ≠ RpcEvent.timeout := by
      intro he
      exact h (by rw [← he]; exact List.mem_cons_self e rest)
    rw [List.foldl_cons, ih _ h1]
    cases e with
    | deliver d => exact rpcStep_deliver_timerScheduled pending st d
    | timeout => exact absurd rfl h2

/-- C5 counterexample: when the matching reply wins the race the promise
resolves, but the deadline timer is STILL scheduled afterwards (it is never
cleared), and when the timeout wins the temporary reply subscription is
STILL active afterwards (it is never cancelled): the resources of the
loser of the race are not released. -/
theorem claim_C5_cex :
    (rpcRun "req-1" [RpcEvent.deliver matchedDelivery]).settled
      = some (RpcSettle.resolve (Json.num 7)) ∧
    (rpcRun "req-1" [RpcEvent.deliver matchedDelivery]).timerScheduled = true ∧
    (rpcRun "req-1" [RpcEvent.timeout]).consumerActive = true :=
  ⟨rfl, rfl, rfl⟩

/-- C5 (amended): when no settling reply arrives before the deadline, the
call rejects with the generic Error whose message is RPC timeout; the first
settlement of the race is permanent, so a matching reply arriving after the
timeout neither resolves nor throws at the promise level; but the resources
of the loser are NOT released: the reply subscription stays active through
every event sequence and the deadline timer stays scheduled until it
fires. -/
theorem claim_C5 (pending : String) (ds : List RpcDelivery)
    (evs : List RpcEvent) (d : RpcDelivery) :
    ((∀ d2 ∈ ds, (rpcReplyHandler pending (some d2)).2 = none) →
       (rpcRun pending (ds.map RpcEvent.deliver ++ [RpcEvent.timeout])).settled
         = some (RpcSettle.reject "RPC timeout")) ∧
    ((rpcRun pending [RpcEvent.timeout, RpcEvent.deliver d]).settled
       = some (RpcSettle.reject "RPC timeout")) ∧
    (∀ s, (rpcRun pending evs).settled = some s →
       ∀ more, (rpcRun pending (evs ++ more)).settled = some s) ∧
    (rpcRun pending evs).consumerActive = true ∧
    (RpcEvent.timeout ∉ evs → (rpcRun pending evs).timerScheduled = true) := by
  refine ⟨?_, ?_, ?_, ?_, ?_⟩
  · intro h
    unfold rpcRun
    rw [List.foldl_append]
    have hs : ((ds.map RpcEvent.deliver).foldl (rpcStep pending) rpcInit).settled
        = none := by
      rw [rpcFold_delivers_no_settle pending ds rpcInit h]; rfl
    have htm : ((ds.map RpcEvent.deliver).foldl (rpcStep pending) rpcInit).timerScheduled
        = true := by
      rw [rpcFold_delivers_timer]; rfl
    show (rpcStep pending ((ds.map RpcEvent.deliver).foldl (rpcStep pending) rpcInit)
        RpcEvent.timeout).settled = some (RpcSettle.reject "RPC timeout")
    simp [rpcStep, htm, promiseSettle, hs]
  · have h1 : (rpcStep pending rpcInit RpcEvent.timeout).settled
        = some (RpcSettle.reject "RPC timeout") := rfl
    show (rpcStep pending (rpcStep pending rpcInit RpcEvent.timeout)
        (RpcEvent.deliver d)).settled = some (RpcSettle.reject "RPC timeout")
    exact rpcStep_settled_some pending _ _ _ h1
  · intro s hs more
    unfold rpcRun at hs ⊢
    rw [List.foldl_append]
    exact rpcFold_settled_some pending more _ s hs
  · unfold rpcRun
    rw [rpcFold_consumerActive]
    rfl
  · intro h
    unfold rpcRun
    rw [rpcFold_timer_no_timeout pending evs rpcInit h]
    rfl

/-- C5 witness: with no reply at all, the call rejects with the RPC timeout
error when the deadline fires. -/
theorem claim_C5_witness :
    (rpcRun "req-1" (List.map RpcEvent.deliver [] ++ [RpcEvent.timeout])).settled
      = some (RpcSettle.reject "RPC timeout") :=
  (claim_C5 "req-1" [] [] matchedDelivery).1
    (fun d2 hd2 => absurd hd2 (List.not_mem_nil d2))

end TonSuite

